import Mathlib

/-!
# Verification of the microbase bootstrap layer

Shallow embedding of `microbase/middleware.py` and `microbase/app.py`
(suvorovib/microbase), together with models of the small repository modules
(`microbase/config.py`, `microbase/hook.py`, `microbase/route.py`,
`microbase/helpers.py`) that are referenced by those files but whose sources
are not available; those models follow the specification's description and
are marked `Modelled from the spec:` in their doc comments.

Python dynamic values are embedded as inductive types, Python dicts as
association lists (or, for the configuration store, as partial maps),
exceptions as `Except`, and the `try/except` statement as an explicit list of
clauses tried in order.
-/

set_option autoImplicit false

namespace Microbase

/-- JSON-like values stored in Python dicts (request bodies, token payloads,
response bodies). -/
inductive JVal where
  | jstr (s : String)
  | jnum (n : Int)
  | jbool (b : Bool)
  | jobj (fields : List (String × JVal))

/-- First-match lookup in an association list, i.e. `d[k]`/`d.get(k)` for a
Python dict represented with unique keys. -/
def dict_get {α : Type} (d : List (String × α)) (k : String) : Option α :=
  match d with
  | [] => none
  | (k', v) :: rest => if k' == k then some v else dict_get rest k

/-- Python `d[k] = v` on a dict: overwrite the entry if the key is present
(keeping insertion order), otherwise append it. -/
def dict_set {α : Type} (d : List (String × α)) (k : String) (v : α) :
    List (String × α) :=
  if d.any (fun p => p.1 == k) then
    d.map (fun p => if p.1 == k then (k, v) else p)
  else
    d ++ [(k, v)]

/-- Python `d.update(ps)` on a dict: set each entry of `ps` in order. -/
def dict_update {α : Type} (d ps : List (String × α)) : List (String × α) :=
  ps.foldl (fun acc p => dict_set acc p.1 p.2) d

/-- ASCII lowercase of a string, character by character. -/
def str_lower (s : String) : String := String.mk (s.data.map Char.toLower)

/-- Case-insensitive header lookup, `request.headers.get(k, None)` on the
server engine's case-insensitive header dict. -/
def headers_get (hs : List (String × String)) (k : String) : Option String :=
  match hs with
  | [] => none
  | (k', v) :: rest =>
      if str_lower k' == str_lower k then some v else headers_get rest k

/-- Python exceptions that can arise inside the authentication wrapper:
the token codec's expired-signature error, a further codec error
(e.g. an invalid or malformed token), and `KeyError` from a dict lookup.
`ExpiredSignatureError` is re-exported by `microbase/helpers.py` (not in
`src/`); the spec treats the token codec as an external collaborator. -/
inductive PyExc where
  | expiredSignatureError
  | decodeError (message : String)
  | keyError (key : String)
  deriving DecidableEq

/-- Embeds `isinstance(e, helpers.ExpiredSignatureError)`. -/
def is_expired_signature : PyExc → Bool
  | PyExc.expiredSignatureError => true
  | _ => false

/-- The inbound HTTP request as the wrapper sees it: headers, method, the
path-parameter dict `match_info`, and the parsed JSON body `json`. -/
structure Request where
  headers : List (String × String)
  method : String
  match_info : Option (List (String × JVal))
  json : Option (List (String × JVal))

/-- An HTTP response: status code plus JSON body, as built by
`sanic.response.json(data, status)`. -/
structure Response where
  status : Int
  body : JVal

/-- Embeds `http.HTTPStatus(code).phrase`, for the statuses this code emits. -/
def http_status_phrase (code : Int) : String :=
  if code == 200 then "OK"
  else if code == 401 then "Unauthorized"
  else if code == 500 then "Internal Server Error"
  else ""

/-- Embeds `_make_response_json(code, message, data)` from
`microbase/middleware.py`: with `data` present, a 200 response holding
`data`; otherwise a response with status `code` and body
`{"code": code, "message": message-or-phrase}`. -/
def make_response_json (code : Int) (message : Option String)
    (data : Option JVal) : Response :=
  match data with
  | some d => { status := 200, body := d }
  | none =>
      let msg := match message with
        | none => http_status_phrase code
        | some m => m
      { status := code,
        body := JVal.jobj [("code", JVal.jnum code), ("message", JVal.jstr msg)] }

/-- The `params` dict built on the success path of `check_auth`:
`{'auth': {'access_token': ..., 'user_id': ..., 'exp': ...}}`. -/
def auth_params (jwt_token : String) (user_id exp_val : JVal) :
    List (String × JVal) :=
  [("auth", JVal.jobj
    [("access_token", JVal.jstr jwt_token),
     ("user_id", user_id),
     ("exp", exp_val)])]

/-- The request mutation on the success path of `check_auth`: for a GET
request, `request.match_info` (replaced by `{}` when `None`) is updated with
`params`; for any other method, `request.json` is updated instead. -/
def augment_request (request : Request) (jwt_token : String)
    (user_id exp_val : JVal) : Request :=
  if request.method == "GET" then
    { request with
        match_info := some (dict_update (request.match_info.getD [])
          (auth_params jwt_token user_id exp_val)) }
  else
    { request with
        json := some (dict_update (request.json.getD [])
          (auth_params jwt_token user_id exp_val)) }

/-- The `try:` block of `check_auth`'s inner handler, before any `except`
clause runs. `jwt_payload` embeds `helpers.jwt_payload` (the external token
codec looked up through `microbase/helpers.py`); `func` is the wrapped
handler. Dict subscripts `payload['uid']` and `payload['exp']` raise
`KeyError` when the claim is absent. -/
def check_auth_body (jwt_payload : String → Except PyExc (List (String × JVal)))
    (func : Request → Except PyExc Response) (request : Request) :
    Except PyExc Response :=
  match headers_get request.headers "authorization" with
  | none => Except.ok (make_response_json 401 none none)
  | some jwt_token =>
    match jwt_payload jwt_token with
    | Except.error e => Except.error e
    | Except.ok payload =>
      match dict_get payload "uid" with
      | none => Except.error (PyExc.keyError "uid")
      | some user_id =>
        match dict_get payload "exp" with
        | none => Except.error (PyExc.keyError "exp")
        | some exp_val =>
          func (augment_request request jwt_token user_id exp_val)

/-- One `except`-clause: a class test on the raised exception and the
response the clause returns when it matches. -/
def run_excepts (e : PyExc) :
    List ((PyExc → Bool) × Response) → Except PyExc Response
  | [] => Except.error e
  | (test, resp) :: rest =>
      if test e then Except.ok resp else run_excepts e rest

/-- Python `try/except` semantics: a raised exception is offered to each
clause in order; an unmatched exception propagates. -/
def handle_excepts (clauses : List ((PyExc → Bool) × Response)) :
    Except PyExc Response → Except PyExc Response
  | Except.ok v => Except.ok v
  | Except.error e => run_excepts e clauses

/-- The two `except helpers.ExpiredSignatureError` clauses of `check_auth`,
in source order: the first returns a 401 response, the second a 500. -/
def except_clauses : List ((PyExc → Bool) × Response) :=
  [(is_expired_signature, make_response_json 401 none none),
   (is_expired_signature, make_response_json 500 none none)]

/-- Embeds `check_auth(func)`'s inner `handler` from
`microbase/middleware.py`: run the `try:` block, then the two `except`
clauses in order. -/
def check_auth (jwt_payload : String → Except PyExc (List (String × JVal)))
    (func : Request → Except PyExc Response) (request : Request) :
    Except PyExc Response :=
  handle_excepts except_clauses (check_auth_body jwt_payload func request)

/-! ## Application side (`microbase/app.py`) -/

/-- Modelled from the spec: a `Route` record
`{uri, handler, methods, strict_slashes, name}` (§3); `microbase/route.py`
is not in `src/`. Handlers are opaque callables, identified here by an id. -/
structure Route where
  uri : String
  handler : Nat
  methods : List String
  strict_slashes : Bool
  name : Option String
  deriving DecidableEq

/-- Modelled from the spec: the implicit health-check route
`Route(HealthEndpoint(context), '/health')` serving `GET {pre}/health` (§6);
`microbase/endpoint.py` is not in `src/`. Its handler id is `0`. -/
def health_route : Route :=
  { uri := "/health", handler := 0, methods := ["GET"],
    strict_slashes := false, name := none }

/-- The server engine as far as route application observes it: the route
table, i.e. the URIs passed to `add_route`, in call order. -/
structure ServerState where
  route_uris : List String
  deriving DecidableEq

/-- Embeds `server.add_route(handler, uri, ...)`: appends one entry to the
table. -/
def server_add_route (srv : ServerState) (uri : String) : ServerState :=
  { srv with route_uris := srv.route_uris ++ [uri] }

/-- Embeds `Application._apply_routes` from `microbase/app.py`: append the health
route to `self._routes`, then either add every route directly to the server
(empty `bp_prefix`) or add them to a blueprint whose `url_prefix` is
prepended to each URI when the blueprint is registered. `bp_pre` stands for
the application's `bp_prefix` attribute. -/
def apply_routes (bp_pre : String) (routes : List Route) (srv : ServerState) :
    ServerState :=
  let routes := routes ++ [health_route]
  if bp_pre.length == 0 then
    routes.foldl (fun s r => server_add_route s r.uri) srv
  else
    routes.foldl (fun s r => server_add_route s (bp_pre ++ r.uri)) srv

/-- A caller-registered example route for `/widgets` (spec §8, scenario 5). -/
def widgets_route : Route :=
  { uri := "/widgets", handler := 1, methods := ["GET"],
    strict_slashes := false, name := none }

/-! ## Configuration store -/

/-- A settings source: a partial map from case-sensitive keys to values. -/
abbrev Settings : Type := String → Option String

/-- Overlay `hi` on `lo`: a key present in `hi` resolves there, otherwise in
`lo` (later sources override earlier ones). -/
def settings_over (lo hi : Settings) : Settings :=
  fun k => match hi k with
    | some v => some v
    | none => lo k

/-- Modelled from the spec: the ConfigStore merges "defaults → each
`add_config` object in call order → environment variables last (highest
precedence)" (§3); `microbase/config.py` and the environment-loading
mechanics behind `Config(load_env=True)` are not in `src/`. -/
structure ConfigStore where
  defaults : Settings
  objects : List Settings
  env : Settings

/-- Embeds `Application.add_config(config_obj)`: merge one more settings
object, after those registered so far. -/
def add_config (c : ConfigStore) (obj : Settings) : ConfigStore :=
  { c with objects := c.objects ++ [obj] }

/-- The merged settings table: defaults, overlaid by each object in call
order, overlaid by the environment. -/
def ConfigStore.resolve (c : ConfigStore) : Settings :=
  settings_over (c.objects.foldl settings_over c.defaults) c.env

/-! ## Hook and middleware registration -/

/-- Modelled from the spec: the recognized lifecycle events, "server
start/stop phases" (§6); `microbase/hook.py` is not in `src/`. -/
inductive HookNames where
  | before_server_start
  | after_server_start
  | before_server_stop
  | after_server_stop
  deriving DecidableEq

/-- The two middleware phases (`MiddlewareType` in `microbase/middleware.py`). -/
inductive MiddlewareType where
  | request
  | response
  deriving DecidableEq

/-- A dynamically-typed Python argument, as passed to the registration API:
possibly an enum member, a callable (identified by an id), or any other
object. -/
inductive PyVal where
  | hookName (h : HookNames)
  | middlewareType (t : MiddlewareType)
  | callableVal (id : Nat)
  | strVal (s : String)
  | intVal (n : Int)
  | noneVal
  deriving DecidableEq

/-- Embeds `isinstance(x, HookNames)`. -/
def is_hook_name : PyVal → Bool
  | PyVal.hookName _ => true
  | _ => false

/-- Embeds `isinstance(x, MiddlewareType)`. -/
def is_middleware_type : PyVal → Bool
  | PyVal.middlewareType _ => true
  | _ => false

/-- Embeds `callable(x)`. -/
def is_callable : PyVal → Bool
  | PyVal.callableVal _ => true
  | _ => false

/-- Modelled from the spec: `HookHandler(self, handler)` binds a handler to
the application (§3); `microbase/hook.py` is not in `src/`. The application
binding carries no information our claims observe, so only the wrapped
handler is kept. -/
structure HookHandler where
  handler : PyVal
  deriving DecidableEq

/-- Modelled from the spec: `ApplicationError` from `microbase/exception.py`
(not in `src/`), a configuration error carrying a message (§7). -/
structure ApplicationError where
  message : String
  deriving DecidableEq

/-- The registration state of an `Application`: the `_hooks` and
`_middlewares` lists. -/
structure AppState where
  hooks : List (HookNames × HookHandler)
  middlewares : List (MiddlewareType × PyVal)
  deriving DecidableEq

/-- Embeds `Application.add_server_hook(hook_name, handler)`: reject a `hook_name`
outside the `HookNames` enum with an `ApplicationError` (leaving the state
untouched), otherwise append the bound hook. The returned pair is the
application state after the call and the raised error, if any. -/
def add_server_hook (app : AppState) (hook_name : PyVal) (handler : PyVal) :
    AppState × Option ApplicationError :=
  match hook_name with
  | PyVal.hookName h =>
      ({ app with hooks := app.hooks ++ [(h, { handler := handler })] }, none)
  | _ => (app, some { message := "Hook must be one of HookNames enum" })

/-- Embeds `Application.add_middleware(middleware_type, middleware)`: reject a
`middleware_type` outside the `MiddlewareType` enum, then a non-callable
`middleware`, each with an `ApplicationError` (leaving the state untouched);
otherwise append the pair. -/
def add_middleware (app : AppState) (middleware_type : PyVal)
    (middleware : PyVal) : AppState × Option ApplicationError :=
  match middleware_type with
  | PyVal.middlewareType t =>
      if is_callable middleware then
        ({ app with middlewares := app.middlewares ++ [(t, middleware)] }, none)
      else
        (app, some { message := "middleware must be callable" })
  | _ => (app, some { message := "middleware_type must be Middleware enum" })

/-! ## Concrete sample data (used by witnesses and counterexamples) -/

/-- A GET request carrying an authorization header and one path parameter. -/
def sample_get_request : Request :=
  { headers := [("Authorization", "tok123")], method := "GET",
    match_info := some [("id", JVal.jstr "42")], json := none }

/-- A POST request carrying an authorization header and a JSON body. -/
def sample_post_request : Request :=
  { headers := [("Authorization", "tok123")], method := "POST",
    match_info := none, json := some [("qty", JVal.jnum 3)] }

/-- A request with no `authorization` header at all. -/
def sample_no_auth_request : Request :=
  { headers := [("content-type", "application/json")], method := "GET",
    match_info := none, json := none }

/-- A token codec that decodes every token to a payload carrying the `uid`
and `exp` claims. -/
def sample_codec : String → Except PyExc (List (String × JVal)) :=
  fun _ => Except.ok [("uid", JVal.jstr "u1"), ("exp", JVal.jnum 1999999999)]

/-- A token codec that decodes every token to an empty payload (no `uid`). -/
def empty_payload_codec : String → Except PyExc (List (String × JVal)) :=
  fun _ => Except.ok []

/-- A token codec for which every signature has expired. -/
def expired_codec : String → Except PyExc (List (String × JVal)) :=
  fun _ => Except.error PyExc.expiredSignatureError

/-- A token codec for which every token has an invalid (not expired)
signature. -/
def invalid_codec : String → Except PyExc (List (String × JVal)) :=
  fun _ => Except.error (PyExc.decodeError "invalid signature")

/-- A wrapped handler echoing the path-parameter map it received. -/
def echo_handler : Request → Except PyExc Response :=
  fun r => Except.ok { status := 200, body := JVal.jobj (r.match_info.getD []) }

/-- A wrapped handler echoing the JSON body it received. -/
def echo_body_handler : Request → Except PyExc Response :=
  fun r => Except.ok { status := 200, body := JVal.jobj (r.json.getD []) }

/-- An application with nothing registered yet. -/
def empty_app : AppState := { hooks := [], middlewares := [] }

/-- A defaults source setting only `TIMEOUT`. -/
def cfg_defaults : Settings :=
  fun k => if k == "TIMEOUT" then some "30" else none

/-- A first `add_config` object setting `WORKERS`. -/
def cfg_first : Settings :=
  fun k => if k == "WORKERS" then some "1" else none

/-- A second `add_config` object setting `WORKERS` again and `APP_HOST`. -/
def cfg_second : Settings :=
  fun k =>
    if k == "WORKERS" then some "4"
    else if k == "APP_HOST" then some "0.0.0.0"
    else none

/-- An environment source setting only `APP_HOST`. -/
def cfg_env : Settings :=
  fun k => if k == "APP_HOST" then some "127.0.0.1" else none

/-! ## Helper lemmas -/

/-- Evaluating the two `except` clauses of `check_auth` on a raised
exception: an expired signature is handled by the first clause (401);
everything else falls through both clauses and propagates. -/
theorem run_excepts_eq (e : PyExc) :
    run_excepts e except_clauses
      = if is_expired_signature e = true then
          Except.ok (make_response_json 401 none none)
        else Except.error e := by
  cases e <;> rfl

/-- An exception that escapes `check_auth`'s `try/except` is exactly the one
the body raised, and it is not an expired-signature error. -/
theorem handle_excepts_error_inv (x : Except PyExc Response) (e : PyExc)
    (h : handle_excepts except_clauses x = Except.error e) :
    x = Except.error e ∧ is_expired_signature e = false := by
  cases x with
  | ok v => simp [handle_excepts] at h
  | error e' =>
    rw [handle_excepts, run_excepts_eq] at h
    by_cases he : is_expired_signature e' = true
    · rw [if_pos he] at h; cases h
    · rw [if_neg he] at h
      injection h with h1
      subst h1
      exact ⟨rfl, by simpa using he⟩

/-- The 401 and 500 error responses differ. -/
theorem resp_401_ne_500 :
    make_response_json 401 none none ≠ make_response_json 500 none none := by
  intro h
  have hs := congrArg Response.status h
  simp [make_response_json] at hs

/-- A response coming out of `check_auth`'s `try:` block is either the 401
for a missing header or a response of the wrapped handler. -/
theorem check_auth_body_ok_inv
    (jwt_payload : String → Except PyExc (List (String × JVal)))
    (func : Request → Except PyExc Response) (request : Request)
    (v : Response) (h : check_auth_body jwt_payload func request = Except.ok v) :
    v = make_response_json 401 none none ∨ ∃ r', func r' = Except.ok v := by
  unfold check_auth_body at h
  split at h
  · exact Or.inl (Except.ok.inj h).symm
  · split at h
    · cases h
    · split at h
      · cases h
      · split at h
        · cases h
        · exact Or.inr ⟨_, h⟩

/-- An exception can escape the `try:` block only when the `authorization`
header was present. -/
theorem check_auth_body_error_inv
    (jwt_payload : String → Except PyExc (List (String × JVal)))
    (func : Request → Except PyExc Response) (request : Request)
    (e : PyExc) (h : check_auth_body jwt_payload func request = Except.error e) :
    headers_get request.headers "authorization" ≠ none := by
  intro hn
  unfold check_auth_body at h
  rw [hn] at h
  cases h

/-- Unfolding a fold of `server_add_route` calls over a route list. -/
theorem foldl_server_add_route (f : Route → String) (routes : List Route)
    (srv : ServerState) :
    (routes.foldl (fun s r => server_add_route s (f r)) srv).route_uris
      = srv.route_uris ++ routes.map f := by
  induction routes generalizing srv with
  | nil => simp
  | cons r rs ih =>
    rw [List.foldl_cons, ih]
    simp [server_add_route]

/-- The route table produced by `_apply_routes`: the registry followed by
the health route, each URI prefixed when a blueprint prefix is set. -/
theorem apply_routes_uris (bp_pre : String) (routes : List Route)
    (srv : ServerState) :
    (apply_routes bp_pre routes srv).route_uris
      = srv.route_uris
        ++ (routes ++ [health_route]).map
             (fun r => if bp_pre.length == 0 then r.uri else bp_pre ++ r.uri) := by
  unfold apply_routes
  by_cases h : (bp_pre.length == 0) = true
  · rw [if_pos h, foldl_server_add_route (fun r => r.uri)]
    simp [h]
  · rw [if_neg h, foldl_server_add_route (fun r => bp_pre ++ r.uri)]
    simp [h]

/-- Folding `settings_over` over sources that do not set `k` leaves the
resolution of `k` unchanged. -/
theorem settings_foldl_none : ∀ (objs : List Settings) (d : Settings)
    (k : String), (∀ o ∈ objs, o k = none) →
    objs.foldl settings_over d k = d k := by
  intro objs
  induction objs with
  | nil => intro d k _; rfl
  | cons o os ih =>
    intro d k h
    rw [List.foldl_cons,
      ih (settings_over d o) k (fun o' ho' => h o' (List.mem_cons_of_mem _ ho'))]
    simp [settings_over, h o (List.mem_cons_self o os)]

/-! ## Claim theorems -/

/-- C1: for every request whose token decodes to a payload carrying the
`uid` and `exp` claims, `check_auth` builds the auth bundle
`{access_token, user_id, exp}` and merges it under the key `auth` into the
query/path parameter map when the method is GET and into the body map for
every other method (this is `augment_request`), invokes the wrapped handler
on the augmented request, and returns that handler's response unchanged. -/
theorem check_auth_success
    (jwt_payload : String → Except PyExc (List (String × JVal)))
    (func : Request → Except PyExc Response) (request : Request)
    (tok : String) (payload : List (String × JVal)) (user_id exp_val : JVal)
    (resp : Response)
    (htok : headers_get request.headers "authorization" = some tok)
    (hpl : jwt_payload tok = Except.ok payload)
    (huid : dict_get payload "uid" = some user_id)
    (hexp : dict_get payload "exp" = some exp_val)
    (hfunc : func (augment_request request tok user_id exp_val) = Except.ok resp) :
    check_auth jwt_payload func request = Except.ok resp := by
  simp only [check_auth, check_auth_body, htok, hpl, huid, hexp, hfunc,
    handle_excepts]

/-- Witness for C1: a concrete GET request whose handler observes the auth
bundle merged into the path-parameter map and whose response is returned
unchanged. -/
theorem check_auth_success_witness :
    check_auth sample_codec echo_handler sample_get_request
      = Except.ok (Response.mk 200 (JVal.jobj
            [("id", JVal.jstr "42"),
             ("auth", JVal.jobj
               [("access_token", JVal.jstr "tok123"),
                ("user_id", JVal.jstr "u1"),
                ("exp", JVal.jnum 1999999999)])])) :=
  check_auth_success sample_codec echo_handler sample_get_request "tok123"
    [("uid", JVal.jstr "u1"), ("exp", JVal.jnum 1999999999)]
    (JVal.jstr "u1") (JVal.jnum 1999999999) _ rfl rfl rfl rfl rfl

/-- C2: a request whose headers contain no `authorization` entry gets HTTP
status 401 with JSON body `{"code": 401, "message": "Unauthorized"}`; the
wrapped handler is never invoked (the result is this fixed response for
every handler `func`). -/
theorem check_auth_missing_header
    (jwt_payload : String → Except PyExc (List (String × JVal)))
    (func : Request → Except PyExc Response) (request : Request)
    (h : headers_get request.headers "authorization" = none) :
    check_auth jwt_payload func request
      = Except.ok (Response.mk 401
          (JVal.jobj [("code", JVal.jnum 401),
                      ("message", JVal.jstr "Unauthorized")])) := by
  simp only [check_auth, check_auth_body, h, handle_excepts]
  rfl

/-- Witness for C2 at a concrete request without an authorization header. -/
theorem check_auth_missing_header_witness :
    check_auth sample_codec echo_handler sample_no_auth_request
      = Except.ok (Response.mk 401
          (JVal.jobj [("code", JVal.jnum 401),
                      ("message", JVal.jstr "Unauthorized")])) :=
  check_auth_missing_header sample_codec echo_handler sample_no_auth_request rfl

/-- C3: when decoding the presented token fails with the expired-signature
error, `check_auth` responds with HTTP status 401 and the wrapped handler is
not invoked (the result is this fixed response for every handler `func`). -/
theorem check_auth_expired
    (jwt_payload : String → Except PyExc (List (String × JVal)))
    (func : Request → Except PyExc Response) (request : Request) (tok : String)
    (htok : headers_get request.headers "authorization" = some tok)
    (hpl : jwt_payload tok = Except.error PyExc.expiredSignatureError) :
    check_auth jwt_payload func request = Except.ok (make_response_json 401 none none)
    ∧ (make_response_json 401 none none).status = 401 := by
  constructor
  · simp only [check_auth, check_auth_body, htok, hpl, handle_excepts,
      run_excepts_eq, is_expired_signature, if_pos]
  · rfl

/-- Witness for C3 at a concrete request whose token has expired. -/
theorem check_auth_expired_witness :
    check_auth expired_codec echo_handler sample_get_request
      = Except.ok (make_response_json 401 none none)
    ∧ (make_response_json 401 none none).status = 401 :=
  check_auth_expired expired_codec echo_handler sample_get_request "tok123"
    rfl rfl

/-- C4 counterexample: a failure inside the wrapper does escape as an
exception. With a codec that decodes to a payload lacking the `uid` claim,
`check_auth` raises `KeyError('uid')` (the `except` clauses catch only the
expired-signature error), so no response is returned to the caller. -/
theorem check_auth_exception_escapes :
    check_auth empty_payload_codec echo_handler sample_get_request
      = Except.error (PyExc.keyError "uid") := rfl

/-- C4 (amended): a missing `authorization` header and an expired signature
are answered with a response directly; any exception that does propagate out
of `check_auth` is of another kind (a missing payload claim, a non-expired
decode failure, or a handler error), and it implies the header was
present. -/
theorem check_auth_propagation
    (jwt_payload : String → Except PyExc (List (String × JVal)))
    (func : Request → Except PyExc Response) (request : Request) (e : PyExc)
    (h : check_auth jwt_payload func request = Except.error e) :
    is_expired_signature e = false
    ∧ headers_get request.headers "authorization" ≠ none := by
  rw [check_auth] at h
  obtain ⟨hb, hne⟩ := handle_excepts_error_inv _ _ h
  exact ⟨hne, check_auth_body_error_inv _ _ _ _ hb⟩

/-- Witness for the amended C4 at a concrete request whose token has an
invalid (not expired) signature. -/
theorem check_auth_propagation_witness :
    is_expired_signature (PyExc.decodeError "invalid signature") = false
    ∧ headers_get sample_get_request.headers "authorization" ≠ none :=
  check_auth_propagation invalid_codec echo_handler sample_get_request
    (PyExc.decodeError "invalid signature") rfl

/-- C10: the second `except` clause of `check_auth` is unreachable — both
clauses test the same expired-signature class and the first always handles
it — so `check_auth` never produces the 500 response of the second clause
(for any wrapped handler that does not itself return that response). -/
theorem check_auth_never_500
    (jwt_payload : String → Except PyExc (List (String × JVal)))
    (func : Request → Except PyExc Response) (request : Request)
    (hfunc : ∀ r, func r ≠ Except.ok (make_response_json 500 none none)) :
    check_auth jwt_payload func request
      ≠ Except.ok (make_response_json 500 none none) := by
  intro h
  rw [check_auth] at h
  cases hb : check_auth_body jwt_payload func request with
  | ok v =>
    rw [hb] at h
    simp only [handle_excepts] at h
    injection h with hv
    rcases check_auth_body_ok_inv _ _ _ _ hb with h401 | ⟨r', hr'⟩
    · exact resp_401_ne_500 (h401.symm.trans hv)
    · rw [hv] at hr'
      exact hfunc r' hr'
  | error e =>
    rw [hb] at h
    simp only [handle_excepts, run_excepts_eq] at h
    by_cases he : is_expired_signature e = true
    · rw [if_pos he] at h
      injection h with hv
      exact resp_401_ne_500 hv
    · rw [if_neg he] at h
      cases h

/-- Witness for C10 at a concrete request and a handler that returns 200. -/
theorem check_auth_never_500_witness :
    check_auth sample_codec echo_handler sample_get_request
      ≠ Except.ok (make_response_json 500 none none) :=
  check_auth_never_500 sample_codec echo_handler sample_get_request
    (by intro r h; simp [echo_handler, make_response_json] at h)

/-- C5 counterexample: with one caller-registered `/widgets` route and no
prefix, the route sequence applied to the server is
`["/widgets", "/health"]` — the implicit health route is appended after the
caller-registered route, not injected first. -/
theorem health_route_not_first :
    (apply_routes "" [widgets_route] { route_uris := [] }).route_uris
        = ["/widgets", "/health"]
    ∧ (apply_routes "" [widgets_route] { route_uris := [] }).route_uris
        ≠ [health_route.uri, widgets_route.uri] :=
  ⟨rfl, by decide⟩

/-- C5 (amended): during the run()/prepare phase the implicit health-check
route is always injected, appended after every caller-registered route: the
route sequence applied to the server is the caller's routes in registration
order followed by the health route, each URI carrying the blueprint prefix
when one is configured. -/
theorem apply_routes_health_appended
    (bp_pre : String) (routes : List Route) (srv : ServerState) :
    (apply_routes bp_pre routes srv).route_uris
      = srv.route_uris
        ++ routes.map (fun r => if bp_pre.length == 0 then r.uri else bp_pre ++ r.uri)
        ++ [if bp_pre.length == 0 then health_route.uri else bp_pre ++ health_route.uri] := by
  rw [apply_routes_uris]
  simp [List.map_append]

/-- C6: the health route is present in the final route table for every
configuration — under the configured prefix when one exists, otherwise
unprefixed — and an application with `bp_prefix="/v1"` and one added
`/widgets` route yields a final route table that is exactly
`{"/v1/health", "/v1/widgets"}`. -/
theorem health_route_present :
    (∀ (bp_pre : String) (routes : List Route),
      (if bp_pre.length == 0 then health_route.uri else bp_pre ++ health_route.uri)
        ∈ (apply_routes bp_pre routes { route_uris := [] }).route_uris)
    ∧ (∀ s : String,
        s ∈ (apply_routes "/v1" [widgets_route] { route_uris := [] }).route_uris
          ↔ (s = "/v1/health" ∨ s = "/v1/widgets")) := by
  constructor
  · intro bp_pre routes
    rw [apply_routes_uris]
    simp only [List.nil_append]
    exact List.mem_map.mpr ⟨health_route, by simp, rfl⟩
  · intro s
    rw [show (apply_routes "/v1" [widgets_route] { route_uris := [] }).route_uris
          = ["/v1/widgets", "/v1/health"] from rfl]
    simp [or_comm]

/-- C7: configuration resolution order. A key present in the environment
resolves to the environment value (over any `add_config` objects); with the
key absent from the environment, the last `add_config` object (in call
order) that sets it wins; with the key absent everywhere else, the defaults
apply. -/
theorem config_resolution
    (defaults : Settings) (objs1 objs2 : List Settings)
    (obj env : Settings) (k v : String) :
    (env k = some v →
      ConfigStore.resolve
        { defaults := defaults, objects := objs1 ++ obj :: objs2, env := env } k
        = some v)
    ∧ (env k = none → obj k = some v → (∀ o ∈ objs2, o k = none) →
      ConfigStore.resolve
        { defaults := defaults, objects := objs1 ++ obj :: objs2, env := env } k
        = some v)
    ∧ (env k = none → (∀ o ∈ objs1 ++ obj :: objs2, o k = none) →
      ConfigStore.resolve
        { defaults := defaults, objects := objs1 ++ obj :: objs2, env := env } k
        = defaults k) := by
  refine ⟨?_, ?_, ?_⟩
  · intro he
    simp [ConfigStore.resolve, settings_over, he]
  · intro he hobj hnone
    simp only [ConfigStore.resolve, settings_over, he]
    rw [List.foldl_append, List.foldl_cons,
      settings_foldl_none objs2 _ k hnone]
    simp [settings_over, hobj]
  · intro he hnone
    simp only [ConfigStore.resolve, settings_over, he]
    rw [List.foldl_append, List.foldl_cons,
      settings_foldl_none objs2 _ k
        (fun o ho => hnone o (List.mem_append_right _ (List.mem_cons_of_mem _ ho)))]
    rw [show settings_over (List.foldl settings_over defaults objs1) obj k
          = List.foldl settings_over defaults objs1 k by
        simp [settings_over, hnone obj (List.mem_append_right _ (List.mem_cons_self _ _))]]
    exact settings_foldl_none objs1 defaults k
      (fun o ho => hnone o (List.mem_append_left _ ho))

/-- Witness for C7: `APP_HOST` is set by the second object and the
environment — the environment wins; `WORKERS` is set by both objects — the
later call wins; `TIMEOUT` is set only by the defaults. -/
theorem config_resolution_witness :
    ConfigStore.resolve
      { defaults := cfg_defaults, objects := [cfg_first, cfg_second], env := cfg_env }
      "APP_HOST" = some "127.0.0.1"
    ∧ ConfigStore.resolve
      { defaults := cfg_defaults, objects := [cfg_first, cfg_second], env := cfg_env }
      "WORKERS" = some "4"
    ∧ ConfigStore.resolve
      { defaults := cfg_defaults, objects := [cfg_first, cfg_second], env := cfg_env }
      "TIMEOUT" = cfg_defaults "TIMEOUT" :=
  ⟨(config_resolution cfg_defaults [cfg_first] [] cfg_second cfg_env
      "APP_HOST" "127.0.0.1").1 rfl,
   (config_resolution cfg_defaults [cfg_first] [] cfg_second cfg_env
      "WORKERS" "4").2.1 rfl rfl (by simp),
   (config_resolution cfg_defaults [cfg_first] [] cfg_second cfg_env
      "TIMEOUT" "30").2.2 rfl
     (by intro o ho; simp at ho; rcases ho with rfl | rfl <;> rfl)⟩

/-- C8: for every `hook_name` that is not a member of the `HookNames`
enumeration, `add_server_hook` raises an `ApplicationError` and the hooks
list is left unchanged (the returned state is the input state and no hook is
stored). -/
theorem add_server_hook_rejects
    (app : AppState) (hook_name handler : PyVal)
    (h : is_hook_name hook_name = false) :
    add_server_hook app hook_name handler
      = (app, some { message := "Hook must be one of HookNames enum" }) := by
  cases hook_name <;> first | rfl | simp [is_hook_name] at h

/-- Witness for C8: registering a hook under a string instead of a
`HookNames` member fails and stores nothing. -/
theorem add_server_hook_rejects_witness :
    add_server_hook empty_app (PyVal.strVal "on_start") (PyVal.callableVal 3)
      = (empty_app, some { message := "Hook must be one of HookNames enum" }) :=
  add_server_hook_rejects empty_app (PyVal.strVal "on_start")
    (PyVal.callableVal 3) rfl

/-- C9: for every `middleware_type` outside the `MiddlewareType` enumeration
and for every non-callable handler, `add_middleware` raises an
`ApplicationError` and the middleware list is left unchanged (the returned
state is the input state and no middleware is stored). -/
theorem add_middleware_rejects
    (app : AppState) (middleware_type middleware : PyVal)
    (h : is_middleware_type middleware_type = false
      ∨ is_callable middleware = false) :
    (add_middleware app middleware_type middleware).1 = app
    ∧ ((add_middleware app middleware_type middleware).2).isSome = true := by
  rcases h with h | h
  · cases middleware_type <;> simp_all [add_middleware, is_middleware_type]
  · cases middleware_type <;>
      simp_all [add_middleware, is_middleware_type, is_callable]

/-- Witness for C9: registering under a string phase fails, and registering
a non-callable handler under a valid phase also fails; neither is stored. -/
theorem add_middleware_rejects_witness :
    ((add_middleware empty_app (PyVal.strVal "request") (PyVal.callableVal 3)).1
        = empty_app
      ∧ ((add_middleware empty_app (PyVal.strVal "request") (PyVal.callableVal 3)).2).isSome
        = true)
    ∧ ((add_middleware empty_app (PyVal.middlewareType MiddlewareType.request)
          (PyVal.strVal "not-callable")).1 = empty_app
      ∧ ((add_middleware empty_app (PyVal.middlewareType MiddlewareType.request)
          (PyVal.strVal "not-callable")).2).isSome = true) :=
  ⟨add_middleware_rejects empty_app (PyVal.strVal "request")
      (PyVal.callableVal 3) (Or.inl rfl),
   add_middleware_rejects empty_app (PyVal.middlewareType MiddlewareType.request)
      (PyVal.strVal "not-callable") (Or.inr rfl)⟩

end Microbase
